import Mathlib

/-!
Verification development for Telegram Desktop,
src/Telegram/SourceFiles/settings/settings_local_passcode.cpp.

The file under verification is a settings sub-screen handling local
passcode creation, verification, change and removal, plus an auto-lock
timeout display.  We give a shallow embedding of its event handlers as
pure functions over an explicit record of the external application state
the handlers read and write, together with a trace of every call the
handlers make across the file boundary.
-/

namespace LocalPasscode

/-- Modelled from the spec: QString::toUtf8 of the Qt toolkit (outside this
repository) encodes the text as UTF-8 bytes.  Standard UTF-8 encoding of a
single unicode scalar value. -/
def utf8Encode (c : Char) : List Nat :=
  let v := c.toNat
  if v < 0x80 then [v]
  else if v < 0x800 then [0xC0 ||| (v >>> 6), 0x80 ||| (v &&& 0x3F)]
  else if v < 0x10000 then
    [0xE0 ||| (v >>> 12), 0x80 ||| ((v >>> 6) &&& 0x3F), 0x80 ||| (v &&& 0x3F)]
  else
    [0xF0 ||| (v >>> 18), 0x80 ||| ((v >>> 12) &&& 0x3F),
      0x80 ||| ((v >>> 6) &&& 0x3F), 0x80 ||| (v &&& 0x3F)]

/-- Modelled from the spec: QString::toUtf8, the byte string a QString
forwards across the boundary. -/
def toUtf8 (s : String) : List Nat :=
  (s.data.map utf8Encode).flatten

/-- External storage domain object (main/storage_domain, not under src/).
Modelled from the spec: the external authentication/storage component that
receives the plaintext passcode; it stores a passcode. -/
structure StorageDomain where
  passcode : List Nat
deriving DecidableEq, Repr

/-- Modelled from the spec: the external checkPasscode of the domain object
succeeds exactly when the given bytes match the stored passcode. -/
def StorageDomain.checkPasscode (d : StorageDomain) (bytes : List Nat) : Bool :=
  bytes == d.passcode

/-- Modelled from the spec: the external setPasscode of the domain object
stores the given bytes as the passcode. -/
def StorageDomain.setPasscode (d : StorageDomain) (bytes : List Nat) : StorageDomain :=
  { d with passcode := bytes }

/-- The external application state the file reads or writes: the domain
object holding the passcode, the global bad-try count (cPasscodeBadTries)
and last-try timestamp (cPasscodeLastTry), the auto-lock timeout of the
global settings object (Core::App().settings().autoLock(), in seconds) and
the last non-idle time (Core::App().lastNonIdleTime(), crl::time in
milliseconds). -/
structure AppState where
  domain : StorageDomain
  passcodeBadTries : Nat
  passcodeLastTry : Int
  autoLock : Nat
  lastNonIdleTime : Int
deriving DecidableEq, Repr

/-- One call across the file boundary into external application state. -/
inductive ExternalOp where
  | callCheckPasscode (bytes : List Nat)
  | callSetPasscode (bytes : List Nat)
  | writeBadTries (n : Nat)
  | readBadTries
  | writeLastTry (t : Int)
  | callPasscodeCanTry
  | signalLocalPasscodeChanged
  | readAutoLock
  | readLastNonIdleTime
deriving DecidableEq, Repr

/-- The enter screen modes: LocalPasscodeCreate, LocalPasscodeCheck,
LocalPasscodeChange (EnterType in settings_local_passcode.h). -/
inductive EnterType where
  | Create
  | Check
  | Change
deriving DecidableEq, Repr

/-- The four inline error label texts the click handler can set
(lines 234, 243, 259, 274 of the source): lng_passcode_differ,
lng_passcode_is_same, lng_flood_error, lng_passcode_wrong. -/
inductive InlineError where
  | differ
  | isSame
  | flood
  | wrong
deriving DecidableEq, Repr

/-- Navigation events fired by the handlers: _showOther.fire with the
manage section id, or _showBack.fire. -/
inductive NavAction where
  | showOtherManage
  | showBack
deriving DecidableEq, Repr

/-- SetPasscode helper (source lines 35-41): zeroes the global bad-try
count, forwards the UTF-8 bytes of the passcode to the external
setPasscode, and emits the localPasscodeChanged notification. -/
def SetPasscode (st : AppState) (pass : String) : AppState × List ExternalOp :=
  ({ st with
      passcodeBadTries := 0,
      domain := st.domain.setPasscode (toUtf8 pass) },
    [ExternalOp.writeBadTries 0,
      ExternalOp.callSetPasscode (toUtf8 pass),
      ExternalOp.signalLocalPasscodeChanged])

/-- Everything observable about one click of the main button: the external
state afterwards, the arguments of the calls made to the SetPasscode
helper, the inline error label set (if any), whether some input field was
put into its error state (showError), the navigation event fired (if any)
and the trace of boundary calls. -/
structure ClickResult where
  state : AppState
  setPasscodeCalls : List String
  errorLabel : Option InlineError
  fieldErrorShown : Bool
  nav : Option NavAction
  ops : List ExternalOp
deriving DecidableEq, Repr

/-- The click handler of the main button (source lines 217-277).
Parameters: the screen mode, the external state, the current time
(crl::now()), the result of the external passcodeCanTry() rate-limit
query, and the texts of the two passcode fields.  In Check mode the
confirmation field does not exist and its text is the empty string
(source lines 199-201, 219-221). -/
def buttonClicked (ty : EnterType) (st : AppState) (now : Int) (canTry : Bool)
    (newText reenterInput : String) : ClickResult :=
  let reenterText := if ty = EnterType.Check then "" else reenterInput
  if ty = EnterType.Create ∨ ty = EnterType.Change then
    if newText = "" then
      ⟨st, [], none, true, none, []⟩
    else if reenterText = "" then
      ⟨st, [], none, true, none, []⟩
    else if newText ≠ reenterText then
      ⟨st, [], some InlineError.differ, true, none, []⟩
    else if ty = EnterType.Change ∧ st.domain.checkPasscode (toUtf8 newText) then
      ⟨st, [], some InlineError.isSame, true, none,
        [ExternalOp.callCheckPasscode (toUtf8 newText)]⟩
    else
      let res := SetPasscode st newText
      let checkOps : List ExternalOp :=
        if ty = EnterType.Change then
          [ExternalOp.callCheckPasscode (toUtf8 newText)]
        else []
      ⟨res.1, [newText], none, false,
        if ty = EnterType.Create then some NavAction.showOtherManage
        else some NavAction.showBack,
        checkOps ++ res.2⟩
  else
    if ¬ canTry then
      ⟨st, [], some InlineError.flood, true, none,
        [ExternalOp.callPasscodeCanTry]⟩
    else if st.domain.checkPasscode (toUtf8 newText) then
      ⟨{ st with passcodeBadTries := 0 }, [], none, false,
        some NavAction.showOtherManage,
        [ExternalOp.callPasscodeCanTry,
          ExternalOp.callCheckPasscode (toUtf8 newText),
          ExternalOp.writeBadTries 0]⟩
    else
      ⟨{ st with
          passcodeBadTries := st.passcodeBadTries + 1,
          passcodeLastTry := now },
        [], some InlineError.wrong, true, none,
        [ExternalOp.callPasscodeCanTry,
          ExternalOp.callCheckPasscode (toUtf8 newText),
          ExternalOp.readBadTries,
          ExternalOp.writeBadTries (st.passcodeBadTries + 1),
          ExternalOp.writeLastTry now]⟩

/-- The confirmed callback of the disable button confirmation box on the
manage screen (source lines 439-452): SetPasscode with the empty string,
then close the box and fire _showBack. -/
def disableConfirmed (st : AppState) : ClickResult :=
  let res := SetPasscode st ""
  ⟨res.1, [""], none, false, some NavAction.showBack, res.2⟩

/-- kTimerCheck (source line 32), in milliseconds. -/
def kTimerCheck : Int := 1000 * 60

/-- kAutoCloseTimeout (source line 33), in milliseconds. -/
def kAutoCloseTimeout : Int := 1000 * 60 * 10

/-- A periodic timer: its period in milliseconds, and whether one firing
of its body at the given time against the given external state invokes
the wrapped callback, together with the boundary calls of one firing. -/
structure PeriodicTimer where
  period : Int
  callbackOn : AppState → Int → Bool
  tickOps : List ExternalOp

/-- SetupAutoCloseTimer (source lines 43-51): a timer called each
kTimerCheck whose body reads the last non-idle time and invokes the
callback exactly when the idle time reaches kAutoCloseTimeout. -/
def SetupAutoCloseTimer : PeriodicTimer :=
  { period := kTimerCheck,
    callbackOn := fun st now =>
      decide (kAutoCloseTimeout ≤ now - st.lastNonIdleTime),
    tickOps := [ExternalOp.readLastNonIdleTime] }

/-- The three shapes of the auto-lock timeout label (source lines
374-383): lng_passcode_autolock_hours_minutes, lng_minutes, lng_hours. -/
inductive AutolockLabel where
  | hoursAndMinutes (hours minutes : Nat)
  | minutesOnly (minutes : Nat)
  | hoursOnly (hours : Nat)
deriving DecidableEq, Repr

/-- The auto-lock label computation of the manage screen (source lines
367-384) applied to the autoLock value in seconds. -/
def autolockLabel (autolock : Nat) : AutolockLabel :=
  let hours := autolock / 3600
  let minutes := (autolock - hours * 3600) / 60
  if hours ≠ 0 ∧ minutes ≠ 0 then AutolockLabel.hoursAndMinutes hours minutes
  else if minutes ≠ 0 then AutolockLabel.minutesOnly minutes
  else AutolockLabel.hoursOnly hours

/-- The boundary calls of one recomputation of the auto-lock label: it
reads the autoLock value of the global settings object. -/
def autolockLabelOps : List ExternalOp := [ExternalOp.readAutoLock]

/-- Classification of a boundary call by the claim of section 6 of the
spec, which allows only the domain setPasscode and checkPasscode calls
and the autoLock read of the global settings object. -/
def opAllowedBySpecSection6 : ExternalOp → Bool
  | ExternalOp.callCheckPasscode _ => true
  | ExternalOp.callSetPasscode _ => true
  | ExternalOp.readAutoLock => true
  | _ => false

/-- The full boundary of the file: domain setPasscode and checkPasscode,
the global bad-try count and last-try timestamp, the passcodeCanTry
rate-limit query, the localPasscodeChanged notification, the autoLock
read and the lastNonIdleTime read. -/
def opInFileBoundary : ExternalOp → Bool
  | ExternalOp.callCheckPasscode _ => true
  | ExternalOp.callSetPasscode _ => true
  | ExternalOp.writeBadTries _ => true
  | ExternalOp.readBadTries => true
  | ExternalOp.writeLastTry _ => true
  | ExternalOp.callPasscodeCanTry => true
  | ExternalOp.signalLocalPasscodeChanged => true
  | ExternalOp.readAutoLock => true
  | ExternalOp.readLastNonIdleTime => true

/-- The inline error meanings named by the sentence of spec section 7
(empty field, mismatched confirmation, wrong passcode, rate-limited
retry): of the four label texts the code can set, differ, wrong and flood
are named there, while isSame (new passcode equal to the current one) is
not; an empty field sets no inline label at all. -/
def errorNamedBySpecSection7 : InlineError → Bool
  | InlineError.differ => true
  | InlineError.isSame => false
  | InlineError.flood => true
  | InlineError.wrong => true

/-- A concrete external state used in witnesses and counterexamples: the
stored passcode is the UTF-8 encoding of the one-letter text a. -/
def stA : AppState :=
  { domain := { passcode := [97] },
    passcodeBadTries := 2,
    passcodeLastTry := 5,
    autoLock := 60,
    lastNonIdleTime := 0 }

theorem toUtf8_empty : toUtf8 "" = [] := by decide

/-- C5: the auto-close mechanism is a periodic timer firing every 60
seconds (kTimerCheck) whose body invokes the auto-close callback if and
only if the elapsed idle time (now minus the last non-idle time) is at
least 10 minutes (kAutoCloseTimeout); it is never invoked below that
threshold. -/
theorem autoCloseTimer_spec :
    SetupAutoCloseTimer.period = 60 * 1000 ∧
    kAutoCloseTimeout = 10 * 60 * 1000 ∧
    ∀ (st : AppState) (now : Int),
      SetupAutoCloseTimer.callbackOn st now = true ↔
        kAutoCloseTimeout ≤ now - st.lastNonIdleTime := by
  refine ⟨rfl, rfl, ?_⟩
  intro st now
  simp [SetupAutoCloseTimer]

/-- Witness for C5 at a concrete state and time: at exactly ten minutes
of idle time the callback is invoked. -/
theorem autoCloseTimer_spec_witness :
    SetupAutoCloseTimer.callbackOn stA 600000 = true :=
  (autoCloseTimer_spec.2.2 stA 600000).mpr (by decide)

/-- C9: the auto-lock timeout display decomposes the autoLock value in
seconds as hours = autolock / 3600 and minutes =
(autolock - hours * 3600) / 60 with integer division, and chooses the
combined format when both parts are non-zero, the minutes-only format
when minutes alone is non-zero, and the hours-only format otherwise; in
particular every value below 60 seconds gives the hours-only format with
zero hours. -/
theorem autolockLabel_spec (autolock : Nat) :
    (autolock / 3600 ≠ 0 → (autolock - autolock / 3600 * 3600) / 60 ≠ 0 →
       autolockLabel autolock =
         AutolockLabel.hoursAndMinutes (autolock / 3600)
           ((autolock - autolock / 3600 * 3600) / 60)) ∧
    (autolock / 3600 = 0 → (autolock - autolock / 3600 * 3600) / 60 ≠ 0 →
       autolockLabel autolock =
         AutolockLabel.minutesOnly ((autolock - autolock / 3600 * 3600) / 60)) ∧
    ((autolock - autolock / 3600 * 3600) / 60 = 0 →
       autolockLabel autolock = AutolockLabel.hoursOnly (autolock / 3600)) ∧
    (autolock < 60 → autolockLabel autolock = AutolockLabel.hoursOnly 0) := by
  have hlt : autolock < 60 → autolock / 3600 = 0 ∧ autolock / 60 = 0 := by
    intro h
    exact ⟨Nat.div_eq_of_lt (by omega), Nat.div_eq_of_lt (by omega)⟩
  refine ⟨?_, ?_, ?_, ?_⟩
  · intro h1 h2
    simp only [autolockLabel]
    rw [if_pos ⟨h1, h2⟩]
  · intro h1 h2
    simp only [autolockLabel]
    rw [if_neg (by tauto), if_pos h2]
  · intro hm
    simp only [autolockLabel]
    rw [if_neg (by tauto), if_neg (by tauto)]
  · intro h
    obtain ⟨h1, h2⟩ := hlt h
    simp only [autolockLabel, h1]
    rw [if_neg (by simp [h1]), if_neg (by simp [h1, h2])]

/-- Witness for C9 at concrete values: 3660 seconds shows one hour and
one minute, 30 seconds shows zero hours. -/
theorem autolockLabel_spec_witness :
    autolockLabel 3660 = AutolockLabel.hoursAndMinutes 1 1 ∧
    autolockLabel 30 = AutolockLabel.hoursOnly 0 :=
  ⟨(autolockLabel_spec 3660).1 (by decide) (by decide),
    (autolockLabel_spec 30).2.2.2 (by decide)⟩

/-- C6: the confirmed callback of the disable button calls the
SetPasscode helper with the empty string, which forwards an empty byte
string to the external setPasscode and resets the bad-try count to zero,
and then fires the back navigation. -/
theorem disablePasscode_spec (st : AppState) :
    (disableConfirmed st).setPasscodeCalls = [""] ∧
    (disableConfirmed st).ops =
      [ExternalOp.writeBadTries 0, ExternalOp.callSetPasscode [],
        ExternalOp.signalLocalPasscodeChanged] ∧
    (disableConfirmed st).state.domain.passcode = [] ∧
    (disableConfirmed st).state.passcodeBadTries = 0 ∧
    (disableConfirmed st).nav = some NavAction.showBack := by
  simp [disableConfirmed, SetPasscode, StorageDomain.setPasscode, toUtf8_empty]

/-- C7: in Check mode a rate-limited submission (passcodeCanTry false)
shows the flood error and returns; its only boundary call is the
rate-limit query itself, so checkPasscode is never called and the
external state (bad-try count and last-try timestamp included) is
unchanged. -/
theorem check_rateLimited_spec (st : AppState) (now : Int) (a b : String) :
    buttonClicked EnterType.Check st now false a b =
      ⟨st, [], some InlineError.flood, true, none,
        [ExternalOp.callPasscodeCanTry]⟩ := by
  simp [buttonClicked]

/-- C1: in Create and Change mode the click handler calls the SetPasscode
helper exactly when validation passes: not at all if the first field is
empty, the confirmation field is empty or the two texts differ; exactly
once with the entered text if both fields are non-empty and equal and, in
Change mode, checkPasscode rejects the entered text (it differs from the
current passcode). -/
theorem createChange_validation_spec (ty : EnterType)
    (hty : ty = EnterType.Create ∨ ty = EnterType.Change)
    (st : AppState) (now : Int) (canTry : Bool) (a b : String) :
    ((a = "" ∨ b = "" ∨ a ≠ b) →
       (buttonClicked ty st now canTry a b).setPasscodeCalls = []) ∧
    ((a ≠ "" ∧ a = b ∧
        (ty = EnterType.Change →
          st.domain.checkPasscode (toUtf8 a) = false)) →
       (buttonClicked ty st now canTry a b).setPasscodeCalls = [a]) := by
  rcases hty with h | h <;> subst h <;>
    constructor <;> intro h <;>
    simp only [buttonClicked] <;>
    split_ifs <;> simp_all

/-- Witness for C1: in Create mode with matching non-empty fields the
helper is called once with the entered text, and with an empty
confirmation field it is not called. -/
theorem createChange_validation_spec_witness :
    (buttonClicked EnterType.Create stA 0 true "x" "x").setPasscodeCalls
        = ["x"] ∧
    (buttonClicked EnterType.Create stA 0 true "x" "").setPasscodeCalls
        = [] :=
  ⟨(createChange_validation_spec EnterType.Create (Or.inl rfl)
      stA 0 true "x" "x").2 (by decide),
    (createChange_validation_spec EnterType.Create (Or.inl rfl)
      stA 0 true "x" "").1 (by decide)⟩

/-- C3: in Check mode with tries available, a submission rejected by
checkPasscode increments the bad-try count by one and sets the last-try
timestamp to the current time, while an accepted submission resets the
bad-try count to zero and leaves the last-try timestamp unchanged. -/
theorem check_submit_spec (st : AppState) (now : Int) (a b : String) :
    (st.domain.checkPasscode (toUtf8 a) = false →
       (buttonClicked EnterType.Check st now true a b).state.passcodeBadTries
           = st.passcodeBadTries + 1 ∧
       (buttonClicked EnterType.Check st now true a b).state.passcodeLastTry
           = now) ∧
    (st.domain.checkPasscode (toUtf8 a) = true →
       (buttonClicked EnterType.Check st now true a b).state.passcodeBadTries
           = 0 ∧
       (buttonClicked EnterType.Check st now true a b).state.passcodeLastTry
           = st.passcodeLastTry) := by
  constructor <;> intro h <;> simp [buttonClicked, h]

/-- Witness for C3: against the stored passcode of stA, the wrong text b
bumps the bad-try count from 2 to 3 and stamps the time, and the correct
text a zeroes the count and leaves the timestamp at 5. -/
theorem check_submit_spec_witness :
    ((buttonClicked EnterType.Check stA 99 true "b" "").state.passcodeBadTries
        = stA.passcodeBadTries + 1 ∧
     (buttonClicked EnterType.Check stA 99 true "b" "").state.passcodeLastTry
        = 99) ∧
    ((buttonClicked EnterType.Check stA 99 true "a" "").state.passcodeBadTries
        = 0 ∧
     (buttonClicked EnterType.Check stA 99 true "a" "").state.passcodeLastTry
        = stA.passcodeLastTry) :=
  ⟨(check_submit_spec stA 99 "b" "").1 (by decide),
    (check_submit_spec stA 99 "a" "").2 (by decide)⟩

/-- C8: in Change mode, when both fields hold the same non-empty text and
checkPasscode accepts it (it equals the current passcode), the handler
shows the same-passcode error and returns: SetPasscode is not called, the
only boundary call is the checkPasscode query, and the external state
(stored passcode and bad-try count included) is unchanged. -/
theorem change_samePasscode_spec (st : AppState) (now : Int) (canTry : Bool)
    (a b : String) (ha : a ≠ "") (hab : a = b)
    (hsame : st.domain.checkPasscode (toUtf8 a) = true) :
    buttonClicked EnterType.Change st now canTry a b =
      ⟨st, [], some InlineError.isSame, true, none,
        [ExternalOp.callCheckPasscode (toUtf8 a)]⟩ := by
  subst hab
  simp [buttonClicked, ha, hsame]

/-- Witness for C8: entering the current passcode of stA twice in Change
mode leaves everything unchanged and shows the same-passcode error. -/
theorem change_samePasscode_spec_witness :
    buttonClicked EnterType.Change stA 0 true "a" "a" =
      ⟨stA, [], some InlineError.isSame, true, none,
        [ExternalOp.callCheckPasscode (toUtf8 "a")]⟩ :=
  change_samePasscode_spec stA 0 true "a" "a"
    (by decide) rfl (by decide)

/-- C10: in Check mode an empty input is not specially validated: with
tries available it is passed to checkPasscode as the empty byte string,
and when that check fails the bad-try count is incremented and the
last-try timestamp set, exactly as for any other wrong passcode. -/
theorem check_emptySubmit_spec (st : AppState) (now : Int) (b : String)
    (h : st.domain.checkPasscode (toUtf8 "") = false) :
    buttonClicked EnterType.Check st now true "" b =
      ⟨{ st with
          passcodeBadTries := st.passcodeBadTries + 1,
          passcodeLastTry := now },
        [], some InlineError.wrong, true, none,
        [ExternalOp.callPasscodeCanTry, ExternalOp.callCheckPasscode [],
          ExternalOp.readBadTries,
          ExternalOp.writeBadTries (st.passcodeBadTries + 1),
          ExternalOp.writeLastTry now]⟩ := by
  simp [buttonClicked, toUtf8_empty] at h ⊢
  simp [h]

/-- Witness for C10: submitting an empty field against the non-empty
stored passcode of stA counts as a bad try. -/
theorem check_emptySubmit_spec_witness :
    buttonClicked EnterType.Check stA 42 true "" "" =
      ⟨{ stA with
          passcodeBadTries := stA.passcodeBadTries + 1,
          passcodeLastTry := 42 },
        [], some InlineError.wrong, true, none,
        [ExternalOp.callPasscodeCanTry, ExternalOp.callCheckPasscode [],
          ExternalOp.readBadTries,
          ExternalOp.writeBadTries (stA.passcodeBadTries + 1),
          ExternalOp.writeLastTry 42]⟩ :=
  check_emptySubmit_spec stA 42 "" (by decide)

/-- C2 counterexample: the same-passcode branch of Change mode shows an
inline error label that is none of the four errors the spec names, and an
empty first field shows no inline error label at all (only the field
error state), so the claimed list of inline label errors is wrong on both
counts. -/
theorem inlineErrors_claim_counterexample :
    (buttonClicked EnterType.Change stA 0 true "a" "a").errorLabel
        = some InlineError.isSame ∧
    errorNamedBySpecSection7 InlineError.isSame = false ∧
    (buttonClicked EnterType.Create stA 0 true "" "a").errorLabel = none ∧
    (buttonClicked EnterType.Create stA 0 true "" "a").fieldErrorShown
        = true := by
  decide

/-- C2 amended: the inline error labels the click handler can show are
exactly four: mismatched confirmation, new passcode equal to the current
one, wrong passcode and rate-limited retry; each of the four is reachable,
and an empty field in Create or Change mode shows only the field error
state, never an inline label. -/
theorem inlineErrors_spec :
    (∀ (ty : EnterType) (st : AppState) (now : Int) (canTry : Bool)
        (a b : String),
      (buttonClicked ty st now canTry a b).errorLabel = none ∨
      (buttonClicked ty st now canTry a b).errorLabel
          = some InlineError.differ ∨
      (buttonClicked ty st now canTry a b).errorLabel
          = some InlineError.isSame ∨
      (buttonClicked ty st now canTry a b).errorLabel
          = some InlineError.flood ∨
      (buttonClicked ty st now canTry a b).errorLabel
          = some InlineError.wrong) ∧
    (buttonClicked EnterType.Create stA 0 true "a" "b").errorLabel
        = some InlineError.differ ∧
    (buttonClicked EnterType.Change stA 0 true "a" "a").errorLabel
        = some InlineError.isSame ∧
    (buttonClicked EnterType.Check stA 0 false "a" "").errorLabel
        = some InlineError.flood ∧
    (buttonClicked EnterType.Check stA 0 true "b" "").errorLabel
        = some InlineError.wrong ∧
    (∀ (ty : EnterType) (st : AppState) (now : Int) (canTry : Bool)
        (b : String),
      (ty = EnterType.Create ∨ ty = EnterType.Change) →
        (buttonClicked ty st now canTry "" b).errorLabel = none ∧
        (buttonClicked ty st now canTry "" b).fieldErrorShown = true) ∧
    (∀ (ty : EnterType) (st : AppState) (now : Int) (canTry : Bool)
        (a : String),
      (ty = EnterType.Create ∨ ty = EnterType.Change) → a ≠ "" →
        (buttonClicked ty st now canTry a "").errorLabel = none ∧
        (buttonClicked ty st now canTry a "").fieldErrorShown = true) := by
  refine ⟨?_, by decide, by decide, by decide, by decide, ?_, ?_⟩
  · intro ty st now canTry a b
    rcases hl : (buttonClicked ty st now canTry a b).errorLabel with _ | e
    · exact Or.inl rfl
    · cases e <;> simp
  · intro ty st now canTry b hty
    rcases hty with h | h <;> subst h <;> simp [buttonClicked]
  · intro ty st now canTry a hty ha
    rcases hty with h | h <;> subst h <;> simp [buttonClicked, ha]

/-- Witness for C2 amended: an empty first field in Create mode, and an
empty confirmation field with a non-empty first field in Change mode,
both show the field error state and no inline label. -/
theorem inlineErrors_spec_witness :
    ((buttonClicked EnterType.Create stA 3 true "" "b").errorLabel = none ∧
     (buttonClicked EnterType.Create stA 3 true "" "b").fieldErrorShown
        = true) ∧
    ((buttonClicked EnterType.Change stA 3 true "x" "").errorLabel = none ∧
     (buttonClicked EnterType.Change stA 3 true "x" "").fieldErrorShown
        = true) :=
  ⟨inlineErrors_spec.2.2.2.2.2.1 EnterType.Create stA 3 true "b"
      (Or.inl rfl),
    inlineErrors_spec.2.2.2.2.2.2 EnterType.Change stA 3 true "x"
      (Or.inr rfl) (by decide)⟩

/-- C4 counterexample: a wrong submission in Check mode writes the global
bad-try count, a boundary call that is neither a domain setPasscode or
checkPasscode call nor the settings autoLock read, so the file touches
external global state beyond the three interfaces the spec names. -/
theorem boundary_claim_counterexample :
    (buttonClicked EnterType.Check stA 9 true "b" "").ops.contains
        (ExternalOp.writeBadTries 3) = true ∧
    opAllowedBySpecSection6 (ExternalOp.writeBadTries 3) = false := by
  decide

/-- C4 amended: the boundary calls of the file are exactly those of
opInFileBoundary: domain setPasscode and checkPasscode, reads and writes
of the global bad-try count and last-try timestamp, the passcodeCanTry
query, the localPasscodeChanged notification, the settings autoLock read
and the lastNonIdleTime read; every click-handler trace is one of seven
explicit shapes built from these, and no handler modifies the auto-lock
setting or the last non-idle time. -/
theorem boundary_spec :
    (∀ (ty : EnterType) (st : AppState) (now : Int) (canTry : Bool)
        (a b : String),
      ((buttonClicked ty st now canTry a b).ops = [] ∨
       (buttonClicked ty st now canTry a b).ops
           = [ExternalOp.callCheckPasscode (toUtf8 a)] ∨
       (buttonClicked ty st now canTry a b).ops
           = [ExternalOp.writeBadTries 0,
               ExternalOp.callSetPasscode (toUtf8 a),
               ExternalOp.signalLocalPasscodeChanged] ∨
       (buttonClicked ty st now canTry a b).ops
           = [ExternalOp.callCheckPasscode (toUtf8 a),
               ExternalOp.writeBadTries 0,
               ExternalOp.callSetPasscode (toUtf8 a),
               ExternalOp.signalLocalPasscodeChanged] ∨
       (buttonClicked ty st now canTry a b).ops
           = [ExternalOp.callPasscodeCanTry] ∨
       (buttonClicked ty st now canTry a b).ops
           = [ExternalOp.callPasscodeCanTry,
               ExternalOp.callCheckPasscode (toUtf8 a),
               ExternalOp.writeBadTries 0] ∨
       (buttonClicked ty st now canTry a b).ops
           = [ExternalOp.callPasscodeCanTry,
               ExternalOp.callCheckPasscode (toUtf8 a),
               ExternalOp.readBadTries,
               ExternalOp.writeBadTries (st.passcodeBadTries + 1),
               ExternalOp.writeLastTry now]) ∧
      ((buttonClicked ty st now canTry a b).ops.all opInFileBoundary
          = true) ∧
      (buttonClicked ty st now canTry a b).state.autoLock = st.autoLock ∧
      (buttonClicked ty st now canTry a b).state.lastNonIdleTime
          = st.lastNonIdleTime) ∧
    (∀ st : AppState,
      (disableConfirmed st).ops
          = [ExternalOp.writeBadTries 0, ExternalOp.callSetPasscode [],
              ExternalOp.signalLocalPasscodeChanged] ∧
      (disableConfirmed st).state.autoLock = st.autoLock ∧
      (disableConfirmed st).state.lastNonIdleTime = st.lastNonIdleTime) ∧
    SetupAutoCloseTimer.tickOps = [ExternalOp.readLastNonIdleTime] ∧
    autolockLabelOps = [ExternalOp.readAutoLock] := by
  refine ⟨?_, ?_, rfl, rfl⟩
  · intro ty st now canTry a b
    cases ty <;> simp only [buttonClicked] <;>
      split_ifs <;> simp [SetPasscode, opInFileBoundary]
  · intro st
    simp [disableConfirmed, SetPasscode, StorageDomain.setPasscode,
      toUtf8_empty]

end LocalPasscode
